import Mathlib

/-!
# NTUGuessr admin: moderation handlers and position editor

A shallow embedding of `src/pages/index.js`, `src/components/MapPopup.js` and
`src/lib/supabase.js`.

* JavaScript numbers are exact rationals; a `lat`/`lng` slot holds a number or `null`.
* The Supabase client is an external service.  Every awaited call returns an
  `error` slot that is `null` or an error object; the handlers receive these
  results as parameters and record the calls they issue, in order.
* React state of `Home` and of `MapPopup` is explicit; one render-and-effects
  pass is the function `commit`.
-/

namespace NTUGuessrAdmin

/-! ## Values -/

/-- A JavaScript value that is a number or `null` (`none`). -/
abbrev Num := Option ℚ

/-- Numeric coercion applied by `*`: `null` becomes `0`. -/
def toNumber : Num → ℚ
  | none => 0
  | some x => x

/-- A row of `need_approval` / `locs`: `{ filename, lat, lng }`. -/
structure Item where
  filename : String
  lat : Num
  lng : Num
  deriving DecidableEq

/-- The object `{ lat, lng }` held in `editedPosition`. -/
structure Position where
  lat : Num
  lng : Num
  deriving DecidableEq

/-! ## `src/lib/supabase.js` and the Supabase calls -/

/-- The `error` object of a Supabase response; only `.message` is read. -/
structure SupaError where
  message : String
  deriving DecidableEq

/-- An object of the storage service: bucket and key inside the bucket. -/
structure BlobRef where
  bucket : String
  key : String
  deriving DecidableEq

/-- The Supabase client calls that the handlers issue. -/
inductive Call where
  /-- `supabase.from(table).insert([row])` -/
  | insert (table : String) (row : Item)
  /-- `supabase.from(table).delete().eq(column, value)` -/
  | deleteEq (table : String) (column : String) (value : String)
  /-- `supabase.storage.from(bucket).move(src, dst)` -/
  | move (bucket : String) (src dst : String)
  /-- `supabase.storage.from(bucket).remove(paths)` -/
  | remove (bucket : String) (paths : List String)
  deriving DecidableEq

/-- `getPublicUrl(filename)`: the object whose public URL the storage client
resolves, `supabase.storage.from('locs').getPublicUrl(not_approved/<filename>.jpg)`. -/
def getPublicUrl (filename : String) : BlobRef :=
  ⟨"locs", "not_approved/" ++ filename ++ ".jpg"⟩

/-! ## `src/components/MapPopup.js` -/

/-- `const truncate6dp = (num) => Math.floor(num * 1e6) / 1e6`. -/
def truncate6dp (num : Num) : ℚ :=
  (⌊toNumber num * 1000000⌋ : ℚ) / 1000000

/-- The argument of `onPositionChange` in the second effect of `MapPopup`:
`{ lat: truncate6dp(markerPosition[0]), lng: truncate6dp(markerPosition[1]) }`. -/
def reportedPosition (markerPosition : Num × Num) : Position :=
  ⟨some (truncate6dp markerPosition.1), some (truncate6dp markerPosition.2)⟩

/-- State of a mounted `MapPopup`: `markerPosition`, and the `lat`, `lng` props
seen by the last committed render (the dependencies of its first effect). -/
structure MapPopup where
  markerPosition : Num × Num
  lat : Num
  lng : Num
  deriving DecidableEq

/-! ## `src/pages/index.js`: state of `Home` -/

/-- The `useState` slots of `Home`. -/
structure Home where
  items : List Item
  selectedFilename : Option String
  loading : Bool
  isEditing : Bool
  editedPosition : Position
  deriving DecidableEq

/-- `items.find((item) => item.filename === selectedFilename)`. -/
def selectedItem (h : Home) : Option Item :=
  h.items.find? (fun item => decide (some item.filename = h.selectedFilename))

/-- What a handler did: the calls issued with the `error` each returned, the
`console.error` lines, and the state of `Home` after its `set...` calls. -/
structure Run where
  calls : List (Call × Option SupaError)
  console : List String
  home : Home
  deriving DecidableEq

/-- `approveHandler(item)`; `insertError`, `copyError`, `deleteApprovalError`
are the `error` results of the three awaited calls. -/
def approveHandler (item : Item) (insertError copyError deleteApprovalError : Option SupaError)
    (h : Home) : Run :=
  let filename := item.filename
  let step1 := Call.insert "locs" ⟨filename, item.lat, item.lng⟩
  match insertError with
  | some e => ⟨[(step1, some e)], ["Error inserting into images: " ++ e.message], h⟩
  | none =>
    let step2 := Call.move "locs" ("not_approved/" ++ filename ++ ".jpg")
      ("image/" ++ filename ++ ".jpg")
    match copyError with
    | some e =>
      ⟨[(step1, none), (step2, some e)],
        ["Error moving image to approved directory: " ++ e.message], h⟩
    | none =>
      let step3 := Call.deleteEq "need_approval" "filename" filename
      match deleteApprovalError with
      | some e =>
        ⟨[(step1, none), (step2, none), (step3, some e)],
          ["Error deleting from need_approval: " ++ e.message], h⟩
      | none =>
        ⟨[(step1, none), (step2, none), (step3, none)], [],
          { h with
            items := h.items.filter (fun i => decide (i.filename ≠ filename))
            selectedFilename := none }⟩

/-- `rejectHandler(item)`; `deleteError`, `storageError` are the `error`
results of the two awaited calls. -/
def rejectHandler (item : Item) (deleteError storageError : Option SupaError)
    (h : Home) : Run :=
  let filename := item.filename
  let step1 := Call.deleteEq "need_approval" "filename" filename
  match deleteError with
  | some e => ⟨[(step1, some e)], ["Delete error: " ++ e.message], h⟩
  | none =>
    let step2 := Call.remove "not_approved" [filename]
    match storageError with
    | some e => ⟨[(step1, none), (step2, some e)], ["Storage delete error: " ++ e.message], h⟩
    | none =>
      ⟨[(step1, none), (step2, none)], [],
        { h with
          items := h.items.filter (fun i => decide (i.filename ≠ filename))
          selectedFilename := none }⟩

/-- `handlePositionChange({ lat, lng })`. -/
def handlePositionChange (h : Home) (p : Position) : Home :=
  if h.isEditing then { h with editedPosition := ⟨p.lat, p.lng⟩ } else h

/-- `handleSave()`. -/
def handleSave (h : Home) : Home :=
  { h with
    items := h.items.map (fun item =>
      if some item.filename = h.selectedFilename then
        { item with lat := h.editedPosition.lat, lng := h.editedPosition.lng }
      else item)
    isEditing := false }

/-- `handleCancel()`.  Reading `selectedItem.lat` of `undefined` throws before
any state is set. -/
def handleCancel (h : Home) : Home :=
  match selectedItem h with
  | some item => { h with editedPosition := ⟨item.lat, item.lng⟩, isEditing := false }
  | none => h

/-- Body of the effect with dependency `[selectedItem]`, for the `selectedItem`
of the render it belongs to: `if (selectedItem) { setEditedPosition(...);
setIsEditing(false) }`. -/
def selectionEffect (selected : Option Item) (h : Home) : Home :=
  match selected with
  | some item => { h with editedPosition := ⟨item.lat, item.lng⟩, isEditing := false }
  | none => h

/-! ## The page as a state machine -/

/-- The whole page: state of `Home`, state of the `MapPopup` instance (`none`
while it is not mounted), and the `selectedItem` seen by the last committed
render (the dependency of the reset effect; `undefined` before the first). -/
structure UI where
  home : Home
  popup : Option MapPopup
  depSelectedItem : Option Item
  deriving DecidableEq

/-- One render of `Home` followed by its effects.

`MapPopup` is rendered when `loading` is false and `selectedItem` exists; on
mount `markerPosition` starts as `[lat, lng]`.  Effects of the child run before
those of the parent, each with the values of this render, and the queued
`set...` calls are applied in order:
1. `MapPopup`, deps `[lat, lng]`: `setMarkerPosition([lat, lng])`;
2. `MapPopup`, deps `[markerPosition, onPositionChange]`: `onPositionChange` is
   a fresh closure on every render of `Home`, so the effect runs on every
   pass and calls `handlePositionChange` with the truncated marker;
3. `Home`, deps `[selectedItem]`: the reset effect.
Dependencies are compared by value; `handleSave` is the one place that
replaces the selected object by an equal one, and there the reset effect
writes the values already present. -/
def commit (u : UI) : UI :=
  let h := u.home
  let lat := h.editedPosition.lat
  let lng := h.editedPosition.lng
  let sel := selectedItem h
  let mounted := !h.loading && sel.isSome
  let marker : Num × Num :=
    match u.popup with
    | some p => p.markerPosition
    | none => (lat, lng)
  let latLngChanged : Bool :=
    match u.popup with
    | some p => decide ((p.lat, p.lng) ≠ (lat, lng))
    | none => true
  let popup1 : Option MapPopup :=
    if mounted then some ⟨if latLngChanged then (lat, lng) else marker, lat, lng⟩ else none
  let h1 : Home := if mounted then handlePositionChange h (reportedPosition marker) else h
  let h2 : Home := if sel ≠ u.depSelectedItem then selectionEffect sel h1 else h1
  ⟨h2, popup1, sel⟩

/-- What the reviewer, or React, does next. -/
inductive Event where
  /-- React renders and runs the effects. -/
  | render
  /-- `onClick={() => setSelectedFilename(item.filename)}` on a list entry. -/
  | clickItem (filename : String)
  /-- The Edit button: `setIsEditing(true)`. -/
  | clickEdit
  /-- A click on the map: `setPosition([e.latlng.lat, e.latlng.lng])`. -/
  | clickMap (lat lng : ℚ)
  /-- The Save button. -/
  | clickSave
  /-- The Cancel button. -/
  | clickCancel

/-- The page reacts to one event.  A control that is not rendered cannot be
clicked: the list needs `loading` false and lists the items; the buttons and
the map need a selected item; Edit shows when `isEditing` is false, Save,
Cancel and the `LocationSelector` when it is true. -/
def step (u : UI) : Event → UI
  | .render => commit u
  | .clickItem filename =>
    if !u.home.loading && u.home.items.any (fun item => decide (item.filename = filename)) then
      { u with home := { u.home with selectedFilename := some filename } }
    else u
  | .clickEdit =>
    if !u.home.loading && (selectedItem u.home).isSome && !u.home.isEditing then
      { u with home := { u.home with isEditing := true } }
    else u
  | .clickMap lat lng =>
    if !u.home.loading && (selectedItem u.home).isSome && u.home.isEditing then
      match u.popup with
      | some p => { u with popup := some { p with markerPosition := (some lat, some lng) } }
      | none => u
    else u
  | .clickSave =>
    if !u.home.loading && (selectedItem u.home).isSome && u.home.isEditing then
      { u with home := handleSave u.home }
    else u
  | .clickCancel =>
    if !u.home.loading && (selectedItem u.home).isSome && u.home.isEditing then
      { u with home := handleCancel u.home }
    else u

/-- The page reacts to a sequence of events, first to last. -/
def run (u : UI) (events : List Event) : UI :=
  events.foldl step u

/-- The events of a script are map clicks and render passes only. -/
def Event.isPointerOrRender : Event → Bool
  | .render => true
  | .clickMap _ _ => true
  | _ => false

/-! ## The external stores -/

/-- The Supabase project as far as the handlers touch it: table rows tagged
with their table, and stored objects. -/
structure Backend where
  rows : List (String × Item)
  objects : List BlobRef
  deriving DecidableEq

/-- Rows of one table. -/
def Backend.table (b : Backend) (name : String) : List Item :=
  (b.rows.filter (fun r => decide (r.1 = name))).map (fun r => r.2)

/-- Effect of a call that returned without error.  The handlers filter on the
`filename` column only. -/
def Backend.exec (b : Backend) : Call → Backend
  | .insert table row => { b with rows := b.rows ++ [(table, row)] }
  | .deleteEq table _ value =>
    { b with rows := b.rows.filter (fun r => !(decide (r.1 = table) && decide (r.2.filename = value))) }
  | .move bucket src dst =>
    { b with objects := b.objects.map (fun o => if o = ⟨bucket, src⟩ then ⟨bucket, dst⟩ else o) }
  | .remove bucket paths =>
    { b with objects := b.objects.filter (fun o => !(decide (o.bucket = bucket) && decide (o.key ∈ paths))) }

/-- Replay of the calls a handler issued: a call that returned an error left
the stores as they were. -/
def Backend.replay (b : Backend) : List (Call × Option SupaError) → Backend
  | [] => b
  | (c, none) :: rest => (b.exec c).replay rest
  | (_, some _) :: rest => b.replay rest

/-! ## Invariants used in the proofs -/

/-- The editor is in `Viewing` on item `it`, or still editing. -/
def EditingOrReset (it : Item) (h : Home) : Prop :=
  h.isEditing = true ∨ (h.isEditing = false ∧ h.editedPosition = ⟨it.lat, it.lng⟩)

/-- Invariant of an edit script on the item `it` selected in `h0`. -/
def ScriptInv (it : Item) (h0 : Home) (h : Home) : Prop :=
  h.items = h0.items ∧ h.selectedFilename = h0.selectedFilename ∧ h.loading = false ∧
    EditingOrReset it h

/-- The tentative coordinate holds the truncated click `t` and the marker
reports `t`. -/
def ClickSettled (h0 : Home) (it : Item) (t : Position) (v : UI) : Prop :=
  v.home = { h0 with editedPosition := t } ∧ v.depSelectedItem = some it ∧
    ∃ p, v.popup = some p ∧ reportedPosition p.markerPosition = t

/-! ## Handlers: approval and rejection -/

theorem table_exec_insert_other (b : Backend) (t name : String) (row : Item) (hne : t ≠ name) :
    (b.exec (.insert t row)).table name = b.table name := by
  simp [Backend.exec, Backend.table, List.filter_append, hne]

/-- C1: approveHandler issues a delete only after the insert and the move both
returned without error, and then as the third call after them; when the insert
succeeds and the move fails no delete is issued and every row of
`need_approval` is still there. -/
theorem approveHandler_delete_after_insert_and_move (item : Item)
    (insertError copyError deleteApprovalError : Option SupaError) (h : Home) :
    ((∃ table column value e, (Call.deleteEq table column value, e) ∈
          (approveHandler item insertError copyError deleteApprovalError h).calls) →
        insertError = none ∧ copyError = none ∧
        (approveHandler item insertError copyError deleteApprovalError h).calls =
          [(Call.insert "locs" ⟨item.filename, item.lat, item.lng⟩, none),
           (Call.move "locs" ("not_approved/" ++ item.filename ++ ".jpg")
              ("image/" ++ item.filename ++ ".jpg"), none),
           (Call.deleteEq "need_approval" "filename" item.filename, deleteApprovalError)]) ∧
    (insertError = none → copyError ≠ none →
        (∀ table column value e, (Call.deleteEq table column value, e) ∉
          (approveHandler item insertError copyError deleteApprovalError h).calls) ∧
        ∀ b : Backend,
          (b.replay (approveHandler item insertError copyError deleteApprovalError h).calls).table
            "need_approval" = b.table "need_approval") := by
  constructor
  · rintro ⟨table, column, value, e, hmem⟩
    cases insertError with
    | some e1 => simp [approveHandler] at hmem
    | none =>
      cases copyError with
      | some e2 => simp [approveHandler] at hmem
      | none =>
        cases deleteApprovalError <;> simp [approveHandler]
  · intro hi hc
    subst hi
    cases copyError with
    | none => exact absurd rfl hc
    | some e2 =>
      refine ⟨?_, ?_⟩
      · intro table column value e
        simp [approveHandler]
      · intro b
        simp only [approveHandler, Backend.replay]
        exact table_exec_insert_other b _ _ _ (by decide)

theorem approveHandler_delete_after_insert_and_move_witness :
    (∀ table column value e, (Call.deleteEq table column value, e) ∉
        (approveHandler ⟨"a", some 1, some 103⟩ none (some ⟨"Object not found"⟩) none
          ⟨[⟨"a", some 1, some 103⟩], some "a", false, false, ⟨some 1, some 103⟩⟩).calls) ∧
      ∀ b : Backend,
        (b.replay (approveHandler ⟨"a", some 1, some 103⟩ none (some ⟨"Object not found"⟩) none
          ⟨[⟨"a", some 1, some 103⟩], some "a", false, false, ⟨some 1, some 103⟩⟩).calls).table
          "need_approval" = b.table "need_approval" :=
  (approveHandler_delete_after_insert_and_move ⟨"a", some 1, some 103⟩ none
    (some ⟨"Object not found"⟩) none
    ⟨[⟨"a", some 1, some 103⟩], some "a", false, false, ⟨some 1, some 103⟩⟩).2 rfl (by decide)

/-- C2, as stated, fails: after a fully successful approval of item `a`, a
second call whose insert returns a duplicate-record error issues the insert
only, logs the error and never reaches the move; and had the store accepted
the second insert, `locs` would hold the record twice. -/
theorem approveHandler_second_call_counterexample :
    (approveHandler ⟨"a", some 1, some 103⟩ none none none
        ⟨[⟨"a", some 1, some 103⟩], some "a", false, false, ⟨some 1, some 103⟩⟩).console = [] ∧
    (approveHandler ⟨"a", some 1, some 103⟩
        (some ⟨"duplicate key value violates unique constraint"⟩) none none
        (approveHandler ⟨"a", some 1, some 103⟩ none none none
          ⟨[⟨"a", some 1, some 103⟩], some "a", false, false, ⟨some 1, some 103⟩⟩).home).calls =
      [(Call.insert "locs" ⟨"a", some 1, some 103⟩,
        some ⟨"duplicate key value violates unique constraint"⟩)] ∧
    (approveHandler ⟨"a", some 1, some 103⟩
        (some ⟨"duplicate key value violates unique constraint"⟩) none none
        (approveHandler ⟨"a", some 1, some 103⟩ none none none
          ⟨[⟨"a", some 1, some 103⟩], some "a", false, false, ⟨some 1, some 103⟩⟩).home).console =
      ["Error inserting into images: duplicate key value violates unique constraint"] ∧
    ((Backend.mk [("need_approval", ⟨"a", some 1, some 103⟩)] [getPublicUrl "a"]).replay
        ((approveHandler ⟨"a", some 1, some 103⟩ none none none
          ⟨[⟨"a", some 1, some 103⟩], some "a", false, false, ⟨some 1, some 103⟩⟩).calls ++
         (approveHandler ⟨"a", some 1, some 103⟩ none none none
          ⟨[], none, false, false, ⟨some 1, some 103⟩⟩).calls)).table "locs" =
      [⟨"a", some 1, some 103⟩, ⟨"a", some 1, some 103⟩] := by
  decide

/-- C2, amended: an error of the step-1 insert, a duplicate-record error
included, ends approveHandler at step 1: the insert is the only call issued,
the error is logged, queue and selection are unchanged and the stores are as
they were. -/
theorem approveHandler_insert_error_aborts (item : Item) (e : SupaError)
    (copyError deleteApprovalError : Option SupaError) (h : Home) :
    (approveHandler item (some e) copyError deleteApprovalError h).calls =
      [(Call.insert "locs" ⟨item.filename, item.lat, item.lng⟩, some e)] ∧
    (approveHandler item (some e) copyError deleteApprovalError h).console =
      ["Error inserting into images: " ++ e.message] ∧
    (approveHandler item (some e) copyError deleteApprovalError h).home = h ∧
    ∀ b : Backend,
      b.replay (approveHandler item (some e) copyError deleteApprovalError h).calls = b := by
  simp [approveHandler, Backend.replay]

/-- C3, as stated, fails: with the row delete succeeding and the blob delete
failing, item `a` is still in the queue and still selected. -/
theorem rejectHandler_blob_failure_counterexample :
    (rejectHandler ⟨"a", some 1, some 103⟩ none (some ⟨"Bucket not found"⟩)
        ⟨[⟨"a", some 1, some 103⟩, ⟨"b", some 2, some 104⟩], some "a", false, false,
          ⟨some 1, some 103⟩⟩).home.items =
      [⟨"a", some 1, some 103⟩, ⟨"b", some 2, some 104⟩] ∧
    (rejectHandler ⟨"a", some 1, some 103⟩ none (some ⟨"Bucket not found"⟩)
        ⟨[⟨"a", some 1, some 103⟩, ⟨"b", some 2, some 104⟩], some "a", false, false,
          ⟨some 1, some 103⟩⟩).home.selectedFilename = some "a" := by
  decide

/-- C3, amended: when the delete of the pending record succeeds and the delete
of the blob fails, rejectHandler logs the storage error, which full success
does not, and leaves the queue and the selection exactly as they were. -/
theorem rejectHandler_blob_failure_keeps_queue (item : Item) (e : SupaError) (h : Home) :
    (rejectHandler item none (some e) h).home = h ∧
    (rejectHandler item none (some e) h).console = ["Storage delete error: " ++ e.message] ∧
    (rejectHandler item none none h).console = [] ∧
    (rejectHandler item none (some e) h).calls =
      [(Call.deleteEq "need_approval" "filename" item.filename, none),
       (Call.remove "not_approved" [item.filename], some e)] := by
  simp [rejectHandler]

/-- C4: at filename `a`, a fully successful rejectHandler removes key `a` of
bucket `not_approved`, which is not the object `locs`, `not_approved/a.jpg`
that getPublicUrl resolves and approveHandler moves; the pending blob is still
stored afterwards. -/
theorem rejectHandler_leaves_pending_blob :
    (rejectHandler ⟨"a", some 1, some 103⟩ none none
        ⟨[⟨"a", some 1, some 103⟩], some "a", false, false, ⟨some 1, some 103⟩⟩).calls =
      [(Call.deleteEq "need_approval" "filename" "a", none),
       (Call.remove "not_approved" ["a"], none)] ∧
    getPublicUrl "a" = ⟨"locs", "not_approved/a.jpg"⟩ ∧
    (approveHandler ⟨"a", some 1, some 103⟩ none none none
        ⟨[⟨"a", some 1, some 103⟩], some "a", false, false, ⟨some 1, some 103⟩⟩).calls.map
        Prod.fst =
      [Call.insert "locs" ⟨"a", some 1, some 103⟩,
       Call.move "locs" "not_approved/a.jpg" "image/a.jpg",
       Call.deleteEq "need_approval" "filename" "a"] ∧
    ((Backend.mk [("need_approval", ⟨"a", some 1, some 103⟩)] [getPublicUrl "a"]).replay
        (rejectHandler ⟨"a", some 1, some 103⟩ none none
          ⟨[⟨"a", some 1, some 103⟩], some "a", false, false, ⟨some 1, some 103⟩⟩).calls) =
      ⟨[], [getPublicUrl "a"]⟩ := by
  decide

/-- C5: approveHandler changes the queue and the selection exactly when all
three calls return without error. -/
theorem approveHandler_state_change_iff_success (item : Item)
    (insertError copyError deleteApprovalError : Option SupaError) (h : Home) :
    ((insertError = none ∧ copyError = none ∧ deleteApprovalError = none) →
      (approveHandler item insertError copyError deleteApprovalError h).home =
        { h with
          items := h.items.filter (fun i => decide (i.filename ≠ item.filename))
          selectedFilename := none } ∧
      (∀ i, i ∈ (approveHandler item insertError copyError deleteApprovalError h).home.items ↔
        i ∈ h.items ∧ i.filename ≠ item.filename) ∧
      List.Sublist (approveHandler item insertError copyError deleteApprovalError h).home.items
        h.items) ∧
    (¬ (insertError = none ∧ copyError = none ∧ deleteApprovalError = none) →
      (approveHandler item insertError copyError deleteApprovalError h).home = h) ∧
    (item ∈ h.items →
      ((approveHandler item insertError copyError deleteApprovalError h).home ≠ h ↔
        (insertError = none ∧ copyError = none ∧ deleteApprovalError = none))) := by
  have hfail : ¬ (insertError = none ∧ copyError = none ∧ deleteApprovalError = none) →
      (approveHandler item insertError copyError deleteApprovalError h).home = h := by
    intro hn
    cases insertError <;> cases copyError <;> cases deleteApprovalError <;>
      simp_all [approveHandler]
  refine ⟨?_, hfail, ?_⟩
  · rintro ⟨rfl, rfl, rfl⟩
    refine ⟨rfl, ?_, ?_⟩
    · intro i
      simp [approveHandler, List.mem_filter]
    · simp [approveHandler]
  · intro hmem
    constructor
    · intro hne
      by_contra hn
      exact hne (hfail hn)
    · rintro ⟨rfl, rfl, rfl⟩ heq
      have hitems := congrArg Home.items heq
      simp only [approveHandler] at hitems
      have : item ∈ h.items.filter (fun i => decide (i.filename ≠ item.filename)) := by
        rw [hitems]; exact hmem
      simp [List.mem_filter] at this

theorem approveHandler_state_change_iff_success_witness :
    (approveHandler ⟨"a", some 1, some 103⟩ none none none
        ⟨[⟨"a", some 1, some 103⟩, ⟨"b", some 2, some 104⟩], some "a", false, false,
          ⟨some 1, some 103⟩⟩).home ≠
        ⟨[⟨"a", some 1, some 103⟩, ⟨"b", some 2, some 104⟩], some "a", false, false,
          ⟨some 1, some 103⟩⟩ ∧
    (approveHandler ⟨"a", some 1, some 103⟩ none (some ⟨"Object not found"⟩) none
        ⟨[⟨"a", some 1, some 103⟩, ⟨"b", some 2, some 104⟩], some "a", false, false,
          ⟨some 1, some 103⟩⟩).home =
        ⟨[⟨"a", some 1, some 103⟩, ⟨"b", some 2, some 104⟩], some "a", false, false,
          ⟨some 1, some 103⟩⟩ :=
  ⟨((approveHandler_state_change_iff_success ⟨"a", some 1, some 103⟩ none none none
      ⟨[⟨"a", some 1, some 103⟩, ⟨"b", some 2, some 104⟩], some "a", false, false,
        ⟨some 1, some 103⟩⟩).2.2 (by decide)).mpr ⟨rfl, rfl, rfl⟩,
   (approveHandler_state_change_iff_success ⟨"a", some 1, some 103⟩ none
      (some ⟨"Object not found"⟩) none
      ⟨[⟨"a", some 1, some 103⟩, ⟨"b", some 2, some 104⟩], some "a", false, false,
        ⟨some 1, some 103⟩⟩).2.1 (by decide)⟩

/-- C10, as stated, fails: for an item at latitude 91 and longitude 181 the
insert, the move and the delete are all issued and the item leaves the queue;
no validation error is logged. -/
theorem approveHandler_out_of_range_counterexample :
    approveHandler ⟨"a", some 91, some 181⟩ none none none
        ⟨[⟨"a", some 91, some 181⟩], some "a", false, false, ⟨some 91, some 181⟩⟩ =
      ⟨[(Call.insert "locs" ⟨"a", some 91, some 181⟩, none),
        (Call.move "locs" "not_approved/a.jpg" "image/a.jpg", none),
        (Call.deleteEq "need_approval" "filename" "a", none)],
       [],
       ⟨[], none, false, false, ⟨some 91, some 181⟩⟩⟩ := by
  decide

/-- C10, amended: approveHandler does not inspect the coordinate: for every
item, in range or not, the first call issued is the insert into `locs` of the
row with the item's own filename, lat and lng, and when the three calls return
without error the item is published, moved and removed like any other. -/
theorem approveHandler_no_validation (item : Item)
    (insertError copyError deleteApprovalError : Option SupaError) (h : Home) :
    (approveHandler item insertError copyError deleteApprovalError h).calls.head? =
      some (Call.insert "locs" ⟨item.filename, item.lat, item.lng⟩, insertError) ∧
    (approveHandler item none none none h).calls =
      [(Call.insert "locs" ⟨item.filename, item.lat, item.lng⟩, none),
       (Call.move "locs" ("not_approved/" ++ item.filename ++ ".jpg")
          ("image/" ++ item.filename ++ ".jpg"), none),
       (Call.deleteEq "need_approval" "filename" item.filename, none)] ∧
    (approveHandler item none none none h).console = [] := by
  refine ⟨?_, rfl, rfl⟩
  cases insertError <;> cases copyError <;> cases deleteApprovalError <;> rfl

/-! ## Truncation -/

theorem truncate6dp_some (x : ℚ) : truncate6dp (some x) = (⌊x * 1000000⌋ : ℚ) / 1000000 := rfl

theorem truncate6dp_idem (v : Num) : truncate6dp (some (truncate6dp v)) = truncate6dp v := by
  simp only [truncate6dp, toNumber]
  rw [div_mul_cancel₀ _ (by norm_num : (1000000 : ℚ) ≠ 0), Int.floor_intCast]

theorem reportedPosition_idem (m : Num × Num) :
    reportedPosition ((reportedPosition m).lat, (reportedPosition m).lng) = reportedPosition m := by
  simp [reportedPosition, truncate6dp_idem]

theorem run_cons (u : UI) (e : Event) (es : List Event) : run u (e :: es) = run (step u e) es := rfl

theorem run_append (u : UI) (es fs : List Event) : run u (es ++ fs) = run (run u es) fs := by
  simp [run, List.foldl_append]

theorem run_renders_succ (u : UI) (n : ℕ) :
    run u (List.replicate (n + 1) Event.render) =
      commit (run u (List.replicate n Event.render)) := by
  rw [List.replicate_succ', run_append]; rfl

theorem selectedItem_congr {h k : Home} (hi : k.items = h.items)
    (hs : k.selectedFilename = h.selectedFilename) : selectedItem k = selectedItem h := by
  simp [selectedItem, hi, hs]

theorem selectedItem_filename {h : Home} {it : Item} (hsel : selectedItem h = some it) :
    h.selectedFilename = some it.filename := by
  have := List.find?_some hsel
  exact (of_decide_eq_true this).symm

theorem selectedItem_handleSave (h : Home) (it : Item) (hsel : selectedItem h = some it) :
    selectedItem (handleSave h) =
      some { it with lat := h.editedPosition.lat, lng := h.editedPosition.lng } := by
  have hp := List.find?_some hsel
  unfold selectedItem at hsel
  simp only [selectedItem, handleSave, List.find?_map]
  have hfun : ((fun item : Item => decide (some item.filename = h.selectedFilename)) ∘
      fun item : Item => if some item.filename = h.selectedFilename then
        { item with lat := h.editedPosition.lat, lng := h.editedPosition.lng } else item) =
      fun item : Item => decide (some item.filename = h.selectedFilename) := by
    funext item
    by_cases hc : some item.filename = h.selectedFilename <;> simp [hc]
  rw [hfun, hsel]
  simp [of_decide_eq_true hp]

theorem handlePositionChange_frame (h : Home) (p : Position) :
    (handlePositionChange h p).items = h.items ∧
    (handlePositionChange h p).selectedFilename = h.selectedFilename ∧
    (handlePositionChange h p).loading = h.loading ∧
    (handlePositionChange h p).isEditing = h.isEditing := by
  unfold handlePositionChange; split <;> simp

theorem selectionEffect_frame (s : Option Item) (h : Home) :
    (selectionEffect s h).items = h.items ∧
    (selectionEffect s h).selectedFilename = h.selectedFilename ∧
    (selectionEffect s h).loading = h.loading := by
  unfold selectionEffect; split <;> simp

theorem commit_frame (u : UI) :
    (commit u).home.items = u.home.items ∧
    (commit u).home.selectedFilename = u.home.selectedFilename ∧
    (commit u).home.loading = u.home.loading ∧
    (commit u).depSelectedItem = selectedItem u.home := by
  have hp := handlePositionChange_frame u.home
  simp only [commit]
  split_ifs <;>
    simp [(selectionEffect_frame _ _).1, (selectionEffect_frame _ _).2.1,
      (selectionEffect_frame _ _).2.2, hp]

theorem commit_editingOrReset (u : UI) (it : Item) (hsel : selectedItem u.home = some it)
    (hinv : EditingOrReset it u.home) : EditingOrReset it (commit u).home := by
  simp only [commit, hsel]
  unfold EditingOrReset at *
  unfold handlePositionChange selectionEffect
  split_ifs <;> simp_all

theorem commit_reset_stable (u : UI) (it : Item) (hsel : selectedItem u.home = some it)
    (hed : u.home.isEditing = false) (hpos : u.home.editedPosition = ⟨it.lat, it.lng⟩) :
    (commit u).home = u.home := by
  simp only [commit, hsel]
  unfold handlePositionChange selectionEffect
  cases hu : u.home with
  | mk items sf l e p =>
    simp only [hu] at hed hpos
    subst hed hpos
    split_ifs <;> simp_all

theorem step_clickMap_home (u : UI) (lat lng : ℚ) : (step u (.clickMap lat lng)).home = u.home := by
  simp only [step]
  split_ifs
  · cases u.popup <;> rfl
  · rfl

theorem step_scriptInv (it : Item) (h0 : Home) (hsel0 : selectedItem h0 = some it) (u : UI)
    (e : Event) (he : e.isPointerOrRender = true) (hinv : ScriptInv it h0 u.home) :
    ScriptInv it h0 (step u e).home := by
  obtain ⟨hi, hs, hl, hed⟩ := hinv
  have hsel : selectedItem u.home = some it := (selectedItem_congr hi hs).trans hsel0
  cases e with
  | render =>
    have hf := commit_frame u
    exact ⟨hf.1.trans hi, hf.2.1.trans hs, hf.2.2.1.trans hl, commit_editingOrReset u it hsel hed⟩
  | clickMap lat lng =>
    rw [step_clickMap_home]
    exact ⟨hi, hs, hl, hed⟩
  | clickItem f => simp [Event.isPointerOrRender] at he
  | clickEdit => simp [Event.isPointerOrRender] at he
  | clickSave => simp [Event.isPointerOrRender] at he
  | clickCancel => simp [Event.isPointerOrRender] at he

theorem run_scriptInv (it : Item) (h0 : Home) (hsel0 : selectedItem h0 = some it)
    (script : List Event) (hscript : ∀ e ∈ script, e.isPointerOrRender = true) (u : UI)
    (hinv : ScriptInv it h0 u.home) : ScriptInv it h0 (run u script).home := by
  induction script generalizing u with
  | nil => exact hinv
  | cons e es ih =>
    rw [run_cons]
    apply ih (fun x hx => hscript x (List.mem_cons_of_mem _ hx))
    exact step_scriptInv it h0 hsel0 u e (hscript e (List.mem_cons_self _ _)) hinv

theorem step_script_dep (it : Item) (u : UI) (e : Event) (he : e.isPointerOrRender = true)
    (hsel : selectedItem u.home = some it) (hdep : u.depSelectedItem = some it) :
    (step u e).depSelectedItem = some it := by
  cases e with
  | render => exact (commit_frame u).2.2.2.trans hsel
  | clickMap lat lng =>
    simp only [step]
    split_ifs
    · cases u.popup <;> exact hdep
    · exact hdep
  | clickItem f => simp [Event.isPointerOrRender] at he
  | clickEdit => simp [Event.isPointerOrRender] at he
  | clickSave => simp [Event.isPointerOrRender] at he
  | clickCancel => simp [Event.isPointerOrRender] at he

theorem run_script_dep (it : Item) (h0 : Home) (hsel0 : selectedItem h0 = some it)
    (script : List Event) (hscript : ∀ e ∈ script, e.isPointerOrRender = true) (u : UI)
    (hinv : ScriptInv it h0 u.home) (hdep : u.depSelectedItem = some it) :
    (run u script).depSelectedItem = some it := by
  induction script generalizing u with
  | nil => exact hdep
  | cons e es ih =>
    rw [run_cons]
    have he := hscript e (List.mem_cons_self _ _)
    have hsel : selectedItem u.home = some it :=
      (selectedItem_congr hinv.1 hinv.2.1).trans hsel0
    exact ih (fun x hx => hscript x (List.mem_cons_of_mem _ hx)) _
      (step_scriptInv it h0 hsel0 u e he hinv) (step_script_dep it u e he hsel hdep)

/-- Selecting another entry of the list resets the editor on the next render
pass, and it stays reset on every later pass. -/
theorem clickItem_resets (u : UI) (f : String) (b : Item) (hload : u.home.loading = false)
    (hdep : u.depSelectedItem = selectedItem u.home)
    (hne : u.home.selectedFilename ≠ some f)
    (hb : selectedItem { u.home with selectedFilename := some f } = some b) (n : ℕ) :
    (run u (Event.clickItem f :: List.replicate (n + 1) Event.render)).home =
      { u.home with
        selectedFilename := some f
        editedPosition := ⟨b.lat, b.lng⟩
        isEditing := false } ∧
    (run u (Event.clickItem f :: List.replicate (n + 1) Event.render)).depSelectedItem =
      some b := by
  have hbf : b.filename = f := by
    have := selectedItem_filename hb
    exact (Option.some.inj this).symm
  have hbm : b ∈ u.home.items := List.mem_of_find?_eq_some hb
  have hold : selectedItem u.home ≠ some b := by
    intro h
    apply hne
    rw [selectedItem_filename h, hbf]
  have hstep : step u (.clickItem f) =
      { u with home := { u.home with selectedFilename := some f } } := by
    have hany : u.home.items.any (fun item => decide (item.filename = f)) = true :=
      List.any_eq_true.mpr ⟨b, hbm, by simp [hbf]⟩
    simp [step, hload, hany]
  rw [run_cons, hstep]
  induction n with
  | zero =>
    simp only [zero_add, List.replicate_one, run_cons, step]
    simp only [run, List.foldl_nil, commit, hb, hdep]
    unfold handlePositionChange selectionEffect
    refine ⟨?_, trivial⟩
    split_ifs <;> simp_all
  | succ n ih =>
    rw [run_renders_succ]
    obtain ⟨ihh, ihd⟩ := ih
    set w := run { u with home := { u.home with selectedFilename := some f } }
      (List.replicate (n + 1) Event.render) with hw
    have hselw : selectedItem w.home = some b := by
      rw [ihh]; exact hb
    refine ⟨?_, (commit_frame w).2.2.2.trans hselw⟩
    rw [commit_reset_stable w b hselw (by rw [ihh]) (by rw [ihh]), ihh]

theorem commit_clickSettled (h0 : Home) (it : Item) (m : Num × Num) (v : UI)
    (hload : h0.loading = false) (hsel : selectedItem h0 = some it) (hed : h0.isEditing = true)
    (hv : ClickSettled h0 it (reportedPosition m) v) :
    ClickSettled h0 it (reportedPosition m) (commit v) := by
  obtain ⟨hh, hd, p, hp, hr⟩ := hv
  have hselv : selectedItem v.home = some it := by
    rw [← hsel]; apply selectedItem_congr <;> rw [hh]
  refine ⟨?_, (by simp [commit, hselv]), ?_⟩
  · simp only [commit, hselv, hd, hp, hr]
    simp [hh, hload, hed, handlePositionChange, reportedPosition]
  · simp only [commit, hselv, hp]
    simp only [hh, hload]
    by_cases hc : (p.lat, p.lng) = ((reportedPosition m).lat, (reportedPosition m).lng)
    · simp [hc, hr]
    · simp [hc, reportedPosition_idem]

/-! ## The position editor -/

/-- C6: the coordinate MapPopup reports for a marker at (lat, lng) is
(floor(lat*1e6)/1e6, floor(lng*1e6)/1e6), so 1.34839991 gives 1.348399; and on
a rendered page in edit mode a map click at (lat, lng), one or more render
passes and Save make exactly that the tentative and then the committed
coordinate of the selected item. -/
theorem reported_coordinate_is_floor (lat lng : ℚ) :
    reportedPosition (some lat, some lng) =
      ⟨some ((⌊lat * 1000000⌋ : ℚ) / 1000000), some ((⌊lng * 1000000⌋ : ℚ) / 1000000)⟩ ∧
    truncate6dp (some (134839991 / 100000000)) = 1348399 / 1000000 ∧
    (∀ (u : UI) (it : Item) (p : MapPopup) (n : ℕ), u.home.loading = false →
      selectedItem u.home = some it → u.home.isEditing = true →
      u.depSelectedItem = some it → u.popup = some p →
      p.lat = u.home.editedPosition.lat → p.lng = u.home.editedPosition.lng →
      (run u (Event.clickMap lat lng :: List.replicate (n + 1) Event.render)).home.editedPosition =
        ⟨some ((⌊lat * 1000000⌋ : ℚ) / 1000000), some ((⌊lng * 1000000⌋ : ℚ) / 1000000)⟩ ∧
      selectedItem (run u (Event.clickMap lat lng :: List.replicate (n + 1) Event.render ++
          [Event.clickSave])).home =
        some { it with
          lat := some ((⌊lat * 1000000⌋ : ℚ) / 1000000)
          lng := some ((⌊lng * 1000000⌋ : ℚ) / 1000000) }) := by
  refine ⟨rfl, ?_, ?_⟩
  · have hf : ⌊(134839991 / 100000000 : ℚ) * 1000000⌋ = 1348399 := by
      rw [Int.floor_eq_iff]; norm_num
    rw [truncate6dp_some, hf]; norm_num
  · intro u it p n hload hsel hed hdep hpop hlat hlng
    have hstep : step u (.clickMap lat lng) =
        { u with popup := some { p with markerPosition := (some lat, some lng) } } := by
      simp [step, hload, hsel, hed, hpop]
    have hinv : ∀ k, ClickSettled u.home it (reportedPosition (some lat, some lng))
        (run (step u (.clickMap lat lng)) (List.replicate (k + 1) Event.render)) := by
      intro k
      induction k with
      | zero =>
        rw [hstep]
        simp only [zero_add, List.replicate_one, run_cons, step]
        simp only [run, List.foldl_nil]
        refine ⟨?_, ?_, ?_⟩
        · simp [commit, hsel, hdep, hload, handlePositionChange, hed]
        · simp [commit, hsel]
        · simp [commit, hsel, hload, hlat, hlng]
      | succ k ih =>
        rw [run_renders_succ]
        exact commit_clickSettled u.home it _ _ hload hsel hed ih
    obtain ⟨hh, hd, -⟩ := hinv n
    rw [run_cons]
    refine ⟨by rw [hh]; rfl, ?_⟩
    rw [List.cons_append, run_cons, run_append, run_cons]
    set v := run (step u (.clickMap lat lng)) (List.replicate (n + 1) Event.render) with hv
    have hselv : selectedItem v.home = some it := by
      rw [← hsel]; apply selectedItem_congr <;> rw [hh]
    have hsave : (step v .clickSave).home = handleSave v.home := by
      have hguard : (!v.home.loading && (selectedItem v.home).isSome && v.home.isEditing) =
          true := by
        rw [hselv, hh]; simp [hload, hed]
      simp only [step]
      rw [if_pos hguard]
    simp only [run, List.foldl_nil]
    rw [hsave, selectedItem_handleSave v.home it hselv, hh]
    rfl

theorem reported_coordinate_is_floor_witness :
    (run ⟨⟨[⟨"a", some 1, some 103⟩], some "a", false, true, ⟨some 1, some 103⟩⟩,
          some ⟨(some 1, some 103), some 1, some 103⟩, some ⟨"a", some 1, some 103⟩⟩
        (Event.clickMap (134839991 / 100000000) (-3 / 10000000) ::
          List.replicate (1 + 1) Event.render)).home.editedPosition =
      ⟨some ((⌊(134839991 / 100000000 : ℚ) * 1000000⌋ : ℚ) / 1000000),
       some ((⌊(-3 / 10000000 : ℚ) * 1000000⌋ : ℚ) / 1000000)⟩ ∧
    selectedItem (run ⟨⟨[⟨"a", some 1, some 103⟩], some "a", false, true, ⟨some 1, some 103⟩⟩,
          some ⟨(some 1, some 103), some 1, some 103⟩, some ⟨"a", some 1, some 103⟩⟩
        (Event.clickMap (134839991 / 100000000) (-3 / 10000000) ::
          List.replicate (1 + 1) Event.render ++ [Event.clickSave])).home =
      some { (⟨"a", some 1, some 103⟩ : Item) with
        lat := some ((⌊(134839991 / 100000000 : ℚ) * 1000000⌋ : ℚ) / 1000000)
        lng := some ((⌊(-3 / 10000000 : ℚ) * 1000000⌋ : ℚ) / 1000000) } :=
  (reported_coordinate_is_floor (134839991 / 100000000) (-3 / 10000000)).2.2
    ⟨⟨[⟨"a", some 1, some 103⟩], some "a", false, true, ⟨some 1, some 103⟩⟩,
      some ⟨(some 1, some 103), some 1, some 103⟩, some ⟨"a", some 1, some 103⟩⟩
    ⟨"a", some 1, some 103⟩ ⟨(some 1, some 103), some 1, some 103⟩ 1
    rfl (by decide) rfl rfl rfl rfl rfl

/-- C9: on a rendered page, clicking a list entry other than the selected one
resets the editor, whatever state it was in: after the next render pass and
every later one isEditing is false, editedPosition is the committed coordinate
of the newly selected item and the queue is untouched.  Hence Edit on A, any
map clicks, select B, select A again shows A with its original coordinate. -/
theorem selection_change_resets_editor :
    (∀ (u : UI) (f : String) (b : Item) (n : ℕ), u.home.loading = false →
      u.depSelectedItem = selectedItem u.home →
      u.home.selectedFilename ≠ some f →
      selectedItem { u.home with selectedFilename := some f } = some b →
      (run u (Event.clickItem f :: List.replicate (n + 1) Event.render)).home =
        { u.home with
          selectedFilename := some f
          editedPosition := ⟨b.lat, b.lng⟩
          isEditing := false }) ∧
    (∀ (u : UI) (a b : Item) (script : List Event) (k m : ℕ), u.home.loading = false →
      u.depSelectedItem = selectedItem u.home →
      selectedItem u.home = some a →
      selectedItem { u.home with selectedFilename := some b.filename } = some b →
      b.filename ≠ a.filename →
      (∀ e ∈ script, e.isPointerOrRender = true) →
      (run u (Event.clickEdit :: script ++
          Event.clickItem b.filename :: List.replicate (k + 1) Event.render ++
          Event.clickItem a.filename :: List.replicate (m + 1) Event.render)).home =
        { u.home with editedPosition := ⟨a.lat, a.lng⟩, isEditing := false }) := by
  refine ⟨fun u f b n hload hdep hne hb => (clickItem_resets u f b hload hdep hne hb n).1, ?_⟩
  intro u a b script k m hload hdep hsela hselb hab hscript
  have hsf : u.home.selectedFilename = some a.filename := selectedItem_filename hsela
  -- Edit
  have h1 : ScriptInv a u.home (step u .clickEdit).home := by
    cases hE : u.home.isEditing <;>
      simp [step, hload, hsela, hE, ScriptInv, EditingOrReset]
  have hd1 : (step u .clickEdit).depSelectedItem = some a := by
    rw [← hsela, ← hdep]
    simp only [step]
    split_ifs <;> rfl
  -- map clicks and render passes
  have h2 := run_scriptInv a u.home hsela script hscript _ h1
  have hd2 := run_script_dep a u.home hsela script hscript _ h1 hd1
  set v := run (step u .clickEdit) script with hv
  obtain ⟨hi, hs, hl, -⟩ := h2
  have hselv : selectedItem v.home = some a := (selectedItem_congr hi hs).trans hsela
  -- select B
  have hB := clickItem_resets v b.filename b hl (hd2.trans hselv.symm)
    (by rw [hs, hsf]; exact fun h => hab (Option.some.inj h).symm)
    (by rw [← hselb]; exact selectedItem_congr hi rfl) k
  set w := run v (Event.clickItem b.filename :: List.replicate (k + 1) Event.render) with hw
  obtain ⟨hwh, hwd⟩ := hB
  have hselw : selectedItem w.home = some b := by
    rw [hwh, ← hselb]
    exact selectedItem_congr hi rfl
  -- select A again
  have hA := clickItem_resets w a.filename a (by rw [hwh]; exact hl) (hwd.trans hselw.symm)
    (by rw [hwh]; exact fun h => hab (Option.some.inj h))
    (by
      rw [← hsela]
      apply selectedItem_congr
      · rw [hwh]; exact hi
      · exact hsf.symm) m
  have hrun : run u (Event.clickEdit :: script ++
      Event.clickItem b.filename :: List.replicate (k + 1) Event.render ++
      Event.clickItem a.filename :: List.replicate (m + 1) Event.render) =
      run w (Event.clickItem a.filename :: List.replicate (m + 1) Event.render) := by
    rw [hw, hv]
    simp only [run, List.foldl_append, List.foldl_cons]
  rw [hrun, hA.1, hwh]
  cases hu : u.home with
  | mk items sf l e p =>
    cases hvh : v.home with
    | mk items2 sf2 l2 e2 p2 =>
      simp only [hu, hvh] at hi hs hl hsf hload
      subst hi hs hl
      simp [hsf, hload]

theorem selection_change_resets_editor_witness :
    (run ⟨⟨[⟨"a", some 1, some 103⟩, ⟨"b", some 2, some 104⟩], some "a", false, false,
            ⟨some 1, some 103⟩⟩,
          some ⟨(some 1, some 103), some 1, some 103⟩, some ⟨"a", some 1, some 103⟩⟩
        (Event.clickEdit :: [Event.render, Event.clickMap 2 105, Event.render] ++
          Event.clickItem "b" :: List.replicate (0 + 1) Event.render ++
          Event.clickItem "a" :: List.replicate (0 + 1) Event.render)).home =
      ⟨[⟨"a", some 1, some 103⟩, ⟨"b", some 2, some 104⟩], some "a", false, false,
        ⟨some 1, some 103⟩⟩ :=
  selection_change_resets_editor.2
    ⟨⟨[⟨"a", some 1, some 103⟩, ⟨"b", some 2, some 104⟩], some "a", false, false,
        ⟨some 1, some 103⟩⟩,
      some ⟨(some 1, some 103), some 1, some 103⟩, some ⟨"a", some 1, some 103⟩⟩
    ⟨"a", some 1, some 103⟩ ⟨"b", some 2, some 104⟩
    [Event.render, Event.clickMap 2 105, Event.render] 0 0
    rfl (by decide) (by decide) (by decide) (by decide) (by simp [Event.isPointerOrRender])

end NTUGuessrAdmin
